import Mathlib

/-
Verification of the shellcode loader (src/scripts/loader.py).

The loader is embedded shallowly: the platform-reading calls
(platform.machine(), platform.system(), struct.calcsize("P"), os.path.exists,
file reads) become explicit parameters, and the Windows API (kernel32) becomes
an oracle structure whose fields give the outcome of each call, together with
an explicit trace of the OS calls an execution performs.  Machine handles and
pointers are Nat with 0 playing the role of NULL, matching the truthiness
tests in the Python source.
-/

/-- Python str.lower restricted to ASCII, which is all the loader compares
(architecture names and platform identifiers). -/
def py_lower (s : String) : String :=
  String.mk (s.data.map Char.toLower)

/-- Entry of the ARCH_MAP table (loader.py lines 34-42): bit-width and the
platform.machine names of one architecture alias. -/
structure ArchInfo where
  bits : Nat
  names : List String
  deriving DecidableEq, Repr

/-- ARCH_MAP dict of loader.py lines 34-42, as a lookup returning none for a
key that is not in the dict. -/
def ARCH_MAP : String → Option ArchInfo
  | "x86" => some ⟨32, ["i386", "x86"]⟩
  | "i386" => some ⟨32, ["i386", "x86"]⟩
  | "amd64" => some ⟨64, ["AMD64", "x86_64"]⟩
  | "x86_64" => some ⟨64, ["AMD64", "x86_64"]⟩
  | "x64" => some ⟨64, ["AMD64", "x86_64"]⟩
  | "arm64" => some ⟨64, ["ARM64", "aarch64"]⟩
  | "aarch64" => some ⟨64, ["ARM64", "aarch64"]⟩
  | _ => none

/-- HOST_PROCESSES dict of loader.py lines 45-58; the default [] folds in the
dict.get(target, []) of find_host_process (line 140). -/
def HOST_PROCESSES : String → List String
  | "x86" => ["C:\\Windows\\SysWOW64\\cmd.exe", "C:\\Windows\\SysWOW64\\conhost.exe"]
  | "amd64" => ["C:\\Windows\\System32\\cmd.exe", "C:\\Windows\\System32\\conhost.exe"]
  | "arm64" => ["C:\\Windows\\System32\\cmd.exe", "C:\\Windows\\System32\\conhost.exe"]
  | _ => []

/-- get_os_arch (loader.py lines 98-107); platform.machine() is the machine
parameter. -/
def get_os_arch (machine : String) : String :=
  let m := py_lower machine
  if m = "amd64" ∨ m = "x86_64" then "amd64"
  else if m = "arm64" ∨ m = "aarch64" then "arm64"
  else if m = "i386" ∨ m = "i686" ∨ m = "x86" then "x86"
  else m

/-- normalize_arch (loader.py lines 110-119). -/
def normalize_arch (arch : String) : String :=
  let a := py_lower arch
  if a = "x86" ∨ a = "i386" then "x86"
  else if a = "amd64" ∨ a = "x64" ∨ a = "x86_64" then "amd64"
  else if a = "arm64" ∨ a = "aarch64" then "arm64"
  else a

/-- needs_injection (loader.py lines 122-128); get_python_bitness() is the
python_bits parameter. -/
def needs_injection (target_arch : String) (python_bits : Nat) : Bool :=
  let target := normalize_arch target_arch
  let target_bits := ((ARCH_MAP target).map ArchInfo.bits).getD 64
  python_bits != target_bits

/-- Exceptions the loader raises, by Python class. -/
inductive LoaderError
  | fileNotFound (msg : String)
  | valueError (msg : String)
  | osError (msg : String)
  deriving DecidableEq, Repr

/-- find_host_process (loader.py lines 131-146); os.path.exists is the
path_exists parameter and platform.machine() the machine parameter. -/
def find_host_process (machine : String) (path_exists : String → Bool)
    (target_arch : String) : Except LoaderError String :=
  let target := normalize_arch target_arch
  let os_arch := get_os_arch machine
  if os_arch = "x86" ∧ target ≠ "x86" then
    .error (.valueError ("Cannot run " ++ target ++ " shellcode on 32-bit OS"))
  else
    match (HOST_PROCESSES target).find? path_exists with
    | some path => .ok path
    | none =>
        .error (.fileNotFound
          ("No suitable host process found for " ++ target ++ " architecture"))

/-- load_shellcode (loader.py lines 149-160); the filesystem is the fs
parameter, mapping a path to its contents when the path exists. -/
def load_shellcode (fs : String → Option (List Nat)) (filepath : String) :
    Except LoaderError (List Nat) :=
  match fs filepath with
  | none => .error (.fileNotFound ("Shellcode file not found: " ++ filepath))
  | some shellcode =>
      if shellcode.length = 0 then .error (.valueError "Shellcode file is empty")
      else .ok shellcode

/-- Observable kernel32 calls the loader makes, in the order the source makes
them.  virtualFree stands for the VirtualFree family (the source declares the
prototype at loader.py line 176 but never calls it). -/
inductive Event
  | virtualAlloc (size : Nat)
  | virtualFree (ptr : Nat)
  | rtlMoveMemory (size : Nat)
  | createThread (addr : Nat)
  | waitForSingleObject (handle : Nat)
  | getExitCodeThread (handle : Nat)
  | closeHandle (handle : Nat)
  | createProcessW (path : String)
  | virtualAllocEx (size : Nat)
  | writeProcessMemory (size : Nat) (written : Nat)
  | createRemoteThread (addr : Nat)
  | terminateProcess (handle : Nat)
  deriving DecidableEq, Repr

/-- Outcome oracle for the kernel32 calls: each field gives what the
corresponding Windows API call returns during a run.  Allocation and
handle-returning calls return 0 for NULL, matching the falsy checks in the
source. -/
structure Kernel32 where
  virtualAlloc : Nat → Nat
  createThread : Nat → Nat
  threadExitCode : Nat
  lastError : Nat
  createProcessOk : Bool
  hProcess : Nat
  hThread : Nat
  dwProcessId : Nat
  virtualAllocEx : Nat → Nat
  writeOk : Bool
  writtenBytes : Nat
  createRemoteThread : Nat → Nat
  remoteThreadExitCode : Nat

/-- execute_local (loader.py lines 237-267): VirtualAlloc, RtlMoveMemory,
CreateThread, WaitForSingleObject, GetExitCodeThread, CloseHandle.  Returns the
call trace together with the result (OSError on a failed allocation or thread
creation, otherwise the thread exit code). -/
def execute_local (k : Kernel32) (shellcode : List Nat) :
    List Event × Except LoaderError Nat :=
  let shellcode_size := shellcode.length
  let ptr := k.virtualAlloc shellcode_size
  if ptr = 0 then
    ([Event.virtualAlloc shellcode_size],
     .error (.osError ("VirtualAlloc failed: " ++ toString k.lastError)))
  else
    let thread := k.createThread ptr
    if thread = 0 then
      ([Event.virtualAlloc shellcode_size, Event.rtlMoveMemory shellcode_size,
        Event.createThread ptr],
       .error (.osError ("CreateThread failed: " ++ toString k.lastError)))
    else
      ([Event.virtualAlloc shellcode_size, Event.rtlMoveMemory shellcode_size,
        Event.createThread ptr, Event.waitForSingleObject thread,
        Event.getExitCodeThread thread, Event.closeHandle thread],
       .ok k.threadExitCode)

/-- execute_injected (loader.py lines 270-359): find_host_process,
CreateProcessW suspended, then inside try: VirtualAllocEx, WriteProcessMemory,
CreateRemoteThread, WaitForSingleObject, GetExitCodeThread, CloseHandle; the
finally block (lines 355-359) appends TerminateProcess and the two CloseHandle
calls to every path that entered the try, whether the body raised or
returned. -/
def execute_injected (k : Kernel32) (machine : String) (path_exists : String → Bool)
    (shellcode : List Nat) (target_arch : String) :
    List Event × Except LoaderError Nat :=
  let shellcode_size := shellcode.length
  match find_host_process machine path_exists target_arch with
  | .error e => ([], .error e)
  | .ok host_path =>
      if k.createProcessOk then
        let body :=
          let remote_mem := k.virtualAllocEx shellcode_size
          if remote_mem = 0 then
            ([Event.virtualAllocEx shellcode_size],
             Except.error (LoaderError.osError
               ("VirtualAllocEx failed: " ++ toString k.lastError)))
          else if k.writeOk then
            let remote_thread := k.createRemoteThread remote_mem
            if remote_thread = 0 then
              ([Event.virtualAllocEx shellcode_size,
                Event.writeProcessMemory shellcode_size k.writtenBytes,
                Event.createRemoteThread remote_mem],
               Except.error (LoaderError.osError
                 ("CreateRemoteThread failed: " ++ toString k.lastError)))
            else
              ([Event.virtualAllocEx shellcode_size,
                Event.writeProcessMemory shellcode_size k.writtenBytes,
                Event.createRemoteThread remote_mem,
                Event.waitForSingleObject remote_thread,
                Event.getExitCodeThread remote_thread,
                Event.closeHandle remote_thread],
               Except.ok k.remoteThreadExitCode)
          else
            ([Event.virtualAllocEx shellcode_size,
              Event.writeProcessMemory shellcode_size k.writtenBytes],
             Except.error (LoaderError.osError
               ("WriteProcessMemory failed: " ++ toString k.lastError)))
        ((Event.createProcessW host_path :: body.1) ++
           [Event.terminateProcess k.hProcess, Event.closeHandle k.hThread,
            Event.closeHandle k.hProcess],
         body.2)
      else
        ([Event.createProcessW host_path],
         .error (.osError ("CreateProcessW failed: " ++ toString k.lastError)))

/-- execute_shellcode_windows (loader.py lines 362-371): dispatch between the
injected and the local path on needs_injection. -/
def execute_shellcode_windows (k : Kernel32) (machine : String)
    (path_exists : String → Bool) (python_bits : Nat)
    (shellcode : List Nat) (target_arch : String) :
    List Event × Except LoaderError Nat :=
  if needs_injection target_arch python_bits then
    execute_injected k machine path_exists shellcode target_arch
  else
    execute_local k shellcode

/-- Branch of main (loader.py lines 409-440) a run ends in: the load-error
handler at line 418, the non-Windows rejection at line 425, the execution
exception handlers at lines 432-440, or the sys.exit(exit_code) at line 430. -/
inductive MainOutcome
  | loadError (e : LoaderError)
  | unsupportedPlatform
  | execFailed (e : LoaderError)
  | completed (code : Nat)
  deriving DecidableEq, Repr

/-- Exit code of the loader process for each branch of main: sys.exit(1) on the
three failure branches, sys.exit(exit_code) on completion. -/
def main_exit : MainOutcome → Nat
  | .loadError _ => 1
  | .unsupportedPlatform => 1
  | .execFailed _ => 1
  | .completed code => code

/-- main (loader.py lines 409-440) after argument parsing: load the shellcode
(exit 1 on FileNotFoundError or ValueError), reject a non-Windows
platform.system() (exit 1), otherwise run execute_shellcode_windows and either
propagate its exit code or exit 1 on a raised exception. -/
def main_run (platform_system machine : String) (path_exists : String → Bool)
    (fs : String → Option (List Nat)) (python_bits : Nat) (k : Kernel32)
    (arch filepath : String) : List Event × MainOutcome :=
  match load_shellcode fs filepath with
  | .error e => ([], .loadError e)
  | .ok shellcode =>
      if py_lower platform_system ≠ "windows" then ([], .unsupportedPlatform)
      else
        let r := execute_shellcode_windows k machine path_exists python_bits
          shellcode arch
        match r.2 with
        | .ok code => (r.1, .completed code)
        | .error e => (r.1, .execFailed e)

/-- CPU family of a normalized architecture name, following the spec glossary
(x86 and amd64 form the x86-derived family, arm64 and aarch64 the ARM-derived
family).  The loader source itself carries no family notion; this definition
only serves to state claims about family-dependence. -/
def cpu_family (arch : String) : String :=
  if arch = "x86" ∨ arch = "amd64" then "x86"
  else if arch = "arm64" ∨ arch = "aarch64" then "arm"
  else "unknown"

/-- Test for a VirtualFree-family call in a trace. -/
def is_free_event : Event → Bool
  | .virtualFree _ => true
  | _ => false

/-- Whether a trace contains a VirtualFree-family call. -/
def has_free_event (trace : List Event) : Bool :=
  trace.any is_free_event

/-- Test for a memory-allocation call (VirtualAlloc or VirtualAllocEx). -/
def is_alloc_event : Event → Bool
  | .virtualAlloc _ => true
  | .virtualAllocEx _ => true
  | _ => false

/-- Whether a trace contains a memory-allocation call. -/
def has_alloc_event (trace : List Event) : Bool :=
  trace.any is_alloc_event

/-- Section of a PE container: name and virtual address (RVA). -/
structure PESection where
  name : String
  virtualAddress : Nat
  deriving DecidableEq, Repr

/-- PE container reduced to the fields the Entry Resolver reads: the
entry-point RVA of the optional header and the section table. -/
structure PEImage where
  entryPointRVA : Nat
  sections : List PESection
  deriving DecidableEq, Repr

/-- Test for the ".text"-named section. -/
def is_text_section (s : PESection) : Bool :=
  s.name = ".text"

/-- Modelled from the spec: the Entry Resolver of spec section 4.5 has no
implementation under src/ (src/ holds only the loader script, which consumes
raw blobs).  Per the spec, a PE-class container resolves by reading the
entry-point RVA from the optional header, locating the ".text"-named section,
and returning entry-RVA minus that section's RVA; when no matching section
name is found the offset defaults to 0. -/
def resolve_pe (img : PEImage) : Nat :=
  match img.sections.find? is_text_section with
  | some s => img.entryPointRVA - s.virtualAddress
  | none => 0

/-- Path-existence oracle on which every candidate path exists. -/
def all_paths_exist : String → Bool := fun _ => true

/-- Oracle on which every kernel32 call succeeds; the collected thread exit
status is 42 and WriteProcessMemory reports 1 byte written. -/
def k0 : Kernel32 where
  virtualAlloc := fun _ => 4096
  createThread := fun _ => 1001
  threadExitCode := 42
  lastError := 0
  createProcessOk := true
  hProcess := 2001
  hThread := 2002
  dwProcessId := 555
  virtualAllocEx := fun _ => 8192
  writeOk := true
  writtenBytes := 1
  createRemoteThread := fun _ => 3001
  remoteThreadExitCode := 42

/-- Oracle k0 with a failing local VirtualAlloc. -/
def k_alloc_fail : Kernel32 := { k0 with virtualAlloc := fun _ => 0 }

/-- Oracle k0 with a failing remote VirtualAllocEx. -/
def k_remote_alloc_fail : Kernel32 := { k0 with virtualAllocEx := fun _ => 0 }

/-- Filesystem holding one single-byte shellcode file at sc.bin. -/
def fs_demo : String → Option (List Nat) :=
  fun path => if path = "sc.bin" then some [144] else none

/-- Filesystem holding one zero-length file at empty.bin. -/
def fs_empty : String → Option (List Nat) :=
  fun path => if path = "empty.bin" then some [] else none

/-- List.find? returns the marked element when everything before it fails the
predicate and the element satisfies it. -/
theorem find?_append_first {α : Type} (p : α → Bool) (l₁ l₂ : List α) (x : α)
    (h₁ : ∀ y ∈ l₁, p y = false) (hx : p x = true) :
    (l₁ ++ x :: l₂).find? p = some x := by
  induction l₁ with
  | nil => simp [List.find?, hx]
  | cons a t ih =>
      have ha : p a = false := h₁ a (List.mem_cons_self a t)
      simp only [List.cons_append, List.find?, ha]
      exact ih fun y hy => h₁ y (List.mem_cons_of_mem a hy)

/-- C1 counterexample: on an arm64 host machine running a 64-bit interpreter,
the amd64 target's CPU family differs from the host's, yet the Windows
dispatcher takes the in-process path (its first call is the local
VirtualAlloc), not cross-process injection. -/
theorem c1_counterexample :
    cpu_family (get_os_arch "arm64") ≠ cpu_family (normalize_arch "amd64") ∧
    execute_shellcode_windows k0 "arm64" all_paths_exist 64 [144] "amd64" =
      execute_local k0 [144] ∧
    (execute_shellcode_windows k0 "arm64" all_paths_exist 64 [144] "amd64").1.head? =
      some (Event.virtualAlloc 1) :=
  ⟨by decide, rfl, rfl⟩

/-- C1 (amended): the Windows execution-path decision consults only the
bit-widths: for every host machine and every target whose CPU family differs
from the host's but whose catalogued bit-width equals the running
interpreter's bit-width, the loader executes in-process via execute_local, not
via injection. -/
theorem c1_bits_only (machine target_arch : String) (python_bits : Nat)
    (k : Kernel32) (path_exists : String → Bool) (shellcode : List Nat)
    (_hfam : cpu_family (get_os_arch machine) ≠ cpu_family (normalize_arch target_arch))
    (hbits : ((ARCH_MAP (normalize_arch target_arch)).map ArchInfo.bits).getD 64 =
      python_bits) :
    execute_shellcode_windows k machine path_exists python_bits shellcode target_arch =
      execute_local k shellcode := by
  simp only [execute_shellcode_windows, needs_injection, hbits, bne_self_eq_false,
    Bool.false_eq_true, if_false]

/-- C1 witness: concrete instance of c1_bits_only at an arm-family host and an
x86-family 64-bit target. -/
theorem c1_bits_only_witness :
    cpu_family (get_os_arch "arm64") ≠ cpu_family (normalize_arch "amd64") ∧
    ((ARCH_MAP (normalize_arch "amd64")).map ArchInfo.bits).getD 64 = 64 ∧
    execute_shellcode_windows k0 "arm64" all_paths_exist 64 [144, 144] "amd64" =
      execute_local k0 [144, 144] :=
  ⟨by decide, rfl,
   c1_bits_only "arm64" "amd64" 64 k0 all_paths_exist [144, 144] (by decide) rfl⟩

/-- C2 counterexample: a successful in-process run (thread exit status
collected) whose call trace contains the VirtualAlloc but no VirtualFree: the
region is not released before the call returns. -/
theorem c2_counterexample :
    (execute_local k0 [144]).2 = Except.ok 42 ∧
    Event.virtualAlloc 1 ∈ (execute_local k0 [144]).1 ∧
    has_free_event (execute_local k0 [144]).1 = false :=
  ⟨rfl, by decide, rfl⟩

/-- C2 (amended): the in-process execution path never releases the allocated
region: its trace contains the VirtualAlloc call but no VirtualFree-family
call, on the success path and on every failure path alike; the allocation is
left in place until process exit. -/
theorem c2_no_release (k : Kernel32) (shellcode : List Nat) :
    Event.virtualAlloc shellcode.length ∈ (execute_local k shellcode).1 ∧
    has_free_event (execute_local k shellcode).1 = false := by
  simp only [execute_local, has_free_event]
  split
  · simp [is_free_event]
  · split
    · simp [is_free_event]
    · simp [is_free_event]

/-- C3 counterexample: WriteProcessMemory reports success but writes 1 byte of
a 2-byte image; the loader raises no partial-write error and the injected run
completes normally with the collected exit status. -/
theorem c3_counterexample :
    k0.writeOk = true ∧
    k0.writtenBytes ≠ ([9, 9] : List Nat).length ∧
    (execute_injected k0 "amd64" all_paths_exist [9, 9] "amd64").2 = Except.ok 42 :=
  ⟨rfl, by decide, rfl⟩

/-- C3 (amended): after copying the image into the remote region the loader
checks only the boolean result of WriteProcessMemory; the reported
written-byte count is never compared with the image length, so a
successful-but-short write is accepted and the run proceeds to completion. -/
theorem c3_short_write_accepted (k : Kernel32) (machine : String)
    (path_exists : String → Bool) (shellcode : List Nat)
    (target_arch host_path : String)
    (hfind : find_host_process machine path_exists target_arch = Except.ok host_path)
    (hcp : k.createProcessOk = true)
    (halloc : k.virtualAllocEx shellcode.length ≠ 0)
    (hwrite : k.writeOk = true)
    (hthread : k.createRemoteThread (k.virtualAllocEx shellcode.length) ≠ 0)
    (_hshort : k.writtenBytes ≠ shellcode.length) :
    (execute_injected k machine path_exists shellcode target_arch).2 =
      Except.ok k.remoteThreadExitCode := by
  simp only [execute_injected, hfind, hcp, if_true, halloc, hwrite, hthread, if_false]

/-- C3 witness: concrete instance of c3_short_write_accepted with a 3-byte
image and a reported 1-byte write. -/
theorem c3_short_write_accepted_witness :
    find_host_process "amd64" all_paths_exist "amd64" =
      Except.ok "C:\\Windows\\System32\\cmd.exe" ∧
    k0.writtenBytes ≠ ([9, 9, 9] : List Nat).length ∧
    (execute_injected k0 "amd64" all_paths_exist [9, 9, 9] "amd64").2 = Except.ok 42 :=
  ⟨rfl, by decide,
   c3_short_write_accepted k0 "amd64" all_paths_exist [9, 9, 9] "amd64"
     "C:\\Windows\\System32\\cmd.exe" rfl rfl (by decide) rfl (by decide) (by decide)⟩

/-- C4: for every remote-injection run in which the suspended host process was
created, the teardown sequence of the finally block (TerminateProcess,
CloseHandle on the spawned thread handle, CloseHandle on the process handle)
is a suffix of the observed call trace, on every exit path: remote allocation
failure, write failure, remote-thread-creation failure, and success alike. -/
theorem c4_teardown_on_every_path (k : Kernel32) (machine : String)
    (path_exists : String → Bool) (shellcode : List Nat)
    (target_arch host_path : String)
    (hfind : find_host_process machine path_exists target_arch = Except.ok host_path)
    (hcp : k.createProcessOk = true) :
    List.IsSuffix
      [Event.terminateProcess k.hProcess, Event.closeHandle k.hThread,
        Event.closeHandle k.hProcess]
      (execute_injected k machine path_exists shellcode target_arch).1 := by
  simp only [execute_injected, hfind, hcp, if_true]
  exact List.suffix_append _ _

/-- C4 witness: concrete instances of c4_teardown_on_every_path on an oracle
where every call succeeds and on one where the remote allocation fails; the
teardown suffix is present in both traces. -/
theorem c4_teardown_witness :
    find_host_process "amd64" all_paths_exist "amd64" =
      Except.ok "C:\\Windows\\System32\\cmd.exe" ∧
    k0.createProcessOk = true ∧
    List.IsSuffix
      [Event.terminateProcess 2001, Event.closeHandle 2002, Event.closeHandle 2001]
      (execute_injected k0 "amd64" all_paths_exist [9] "amd64").1 ∧
    List.IsSuffix
      [Event.terminateProcess 2001, Event.closeHandle 2002, Event.closeHandle 2001]
      (execute_injected k_remote_alloc_fail "amd64" all_paths_exist [9] "amd64").1 :=
  ⟨rfl, rfl,
   c4_teardown_on_every_path k0 "amd64" all_paths_exist [9] "amd64"
     "C:\\Windows\\System32\\cmd.exe" rfl rfl,
   c4_teardown_on_every_path k_remote_alloc_fail "amd64" all_paths_exist [9] "amd64"
     "C:\\Windows\\System32\\cmd.exe" rfl rfl⟩

/-- C5: the loader's process exit code equals the executed code's collected
exit status, propagated unchanged, whenever execution completes; and equals
the fixed code 1 on every loader-internal failure branch: load failure,
unsupported platform, and any exception raised during execution. -/
theorem c5_exit_code (platform_system machine : String)
    (path_exists : String → Bool) (fs : String → Option (List Nat))
    (python_bits : Nat) (k : Kernel32) (arch filepath : String) :
    (∀ shellcode code,
      load_shellcode fs filepath = Except.ok shellcode →
      py_lower platform_system = "windows" →
      (execute_shellcode_windows k machine path_exists python_bits shellcode arch).2 =
        Except.ok code →
      main_exit (main_run platform_system machine path_exists fs python_bits k
        arch filepath).2 = code) ∧
    (∀ e, load_shellcode fs filepath = Except.error e →
      main_exit (main_run platform_system machine path_exists fs python_bits k
        arch filepath).2 = 1) ∧
    (py_lower platform_system ≠ "windows" →
      main_exit (main_run platform_system machine path_exists fs python_bits k
        arch filepath).2 = 1) ∧
    (∀ shellcode e,
      load_shellcode fs filepath = Except.ok shellcode →
      py_lower platform_system = "windows" →
      (execute_shellcode_windows k machine path_exists python_bits shellcode arch).2 =
        Except.error e →
      main_exit (main_run platform_system machine path_exists fs python_bits k
        arch filepath).2 = 1) := by
  refine ⟨?_, ?_, ?_, ?_⟩
  · intro shellcode code hload hplat hexec
    simp only [main_run, hload, hplat, ne_eq, not_true_eq_false, if_false, hexec,
      main_exit]
  · intro e hload
    simp only [main_run, hload, main_exit]
  · intro hplat
    simp only [main_run]
    cases hload : load_shellcode fs filepath with
    | error e => simp [main_exit]
    | ok shellcode => simp [hplat, main_exit]
  · intro shellcode e hload hplat hexec
    simp only [main_run, hload, hplat, ne_eq, not_true_eq_false, if_false, hexec,
      main_exit]

/-- C5 witness: concrete runs hitting all four branches: a completed run
propagating the collected status 42, a missing shellcode file, a non-Windows
platform, and a failed VirtualAlloc during execution, the last three all
exiting with 1. -/
theorem c5_exit_code_witness :
    main_exit (main_run "Windows" "amd64" all_paths_exist fs_demo 64 k0
      "amd64" "sc.bin").2 = 42 ∧
    main_exit (main_run "Windows" "amd64" all_paths_exist fs_demo 64 k0
      "amd64" "missing.bin").2 = 1 ∧
    main_exit (main_run "Linux" "amd64" all_paths_exist fs_demo 64 k0
      "amd64" "sc.bin").2 = 1 ∧
    main_exit (main_run "Windows" "amd64" all_paths_exist fs_demo 64 k_alloc_fail
      "amd64" "sc.bin").2 = 1 :=
  ⟨(c5_exit_code "Windows" "amd64" all_paths_exist fs_demo 64 k0 "amd64"
      "sc.bin").1 [144] 42 rfl rfl rfl,
   (c5_exit_code "Windows" "amd64" all_paths_exist fs_demo 64 k0 "amd64"
      "missing.bin").2.1
     (LoaderError.fileNotFound "Shellcode file not found: missing.bin") rfl,
   (c5_exit_code "Linux" "amd64" all_paths_exist fs_demo 64 k0 "amd64"
      "sc.bin").2.2.1 (by decide),
   (c5_exit_code "Windows" "amd64" all_paths_exist fs_demo 64 k_alloc_fail "amd64"
      "sc.bin").2.2.2 [144] (LoaderError.osError "VirtualAlloc failed: 0") rfl rfl rfl⟩

/-- C6 counterexample: on a 32-bit host OS (machine i686) with target amd64,
every catalogued candidate path exists, yet find_host_process raises the
ValueError of the 32-bit-OS guard instead of returning the first existing
path: the lookup is not characterized by path existence alone. -/
theorem c6_counterexample :
    (HOST_PROCESSES (normalize_arch "amd64")).all all_paths_exist = true ∧
    find_host_process "i686" all_paths_exist "amd64" =
      Except.error (LoaderError.valueError "Cannot run amd64 shellcode on 32-bit OS") :=
  ⟨rfl, rfl⟩

/-- C6 (amended): except on a 32-bit x86 host OS with a non-x86 target, where
a ValueError is raised before any path check, host-process lookup raises the
FileNotFoundError exactly when no catalogued candidate path for the normalized
target exists on disk, and returns the first existing path in catalogued order
when at least one exists. -/
theorem c6_host_lookup (machine : String) (path_exists : String → Bool)
    (target_arch : String)
    (hguard : ¬(get_os_arch machine = "x86" ∧ normalize_arch target_arch ≠ "x86")) :
    (find_host_process machine path_exists target_arch =
        Except.error (LoaderError.fileNotFound
          ("No suitable host process found for " ++ normalize_arch target_arch ++
            " architecture")) ↔
      ∀ p ∈ HOST_PROCESSES (normalize_arch target_arch), path_exists p = false) ∧
    (∀ pre path rest,
      HOST_PROCESSES (normalize_arch target_arch) = pre ++ path :: rest →
      (∀ q ∈ pre, path_exists q = false) → path_exists path = true →
      find_host_process machine path_exists target_arch = Except.ok path) := by
  constructor
  · constructor
    · intro h p hp
      cases hfind : (HOST_PROCESSES (normalize_arch target_arch)).find? path_exists with
      | none =>
          have := List.find?_eq_none.mp hfind p hp
          simpa using this
      | some q =>
          simp only [find_host_process, if_neg hguard, hfind] at h
          cases h
    · intro h
      have hnone : (HOST_PROCESSES (normalize_arch target_arch)).find? path_exists =
          none :=
        List.find?_eq_none.mpr fun p hp => by simp [h p hp]
      simp only [find_host_process, if_neg hguard, hnone]
  · intro pre path rest hcand hpre hpath
    have hfind : (HOST_PROCESSES (normalize_arch target_arch)).find? path_exists =
        some path := by
      rw [hcand]
      exact find?_append_first path_exists pre rest path hpre hpath
    simp only [find_host_process, if_neg hguard, hfind]

/-- C6 witness: concrete instance of c6_host_lookup on a 64-bit host with
target amd64 and every path existing: the first catalogued candidate is
returned. -/
theorem c6_host_lookup_witness :
    ¬(get_os_arch "amd64" = "x86" ∧ normalize_arch "amd64" ≠ "x86") ∧
    find_host_process "amd64" all_paths_exist "amd64" =
      Except.ok "C:\\Windows\\System32\\cmd.exe" :=
  ⟨by decide,
   (c6_host_lookup "amd64" all_paths_exist "amd64" (by decide)).2
     [] "C:\\Windows\\System32\\cmd.exe" ["C:\\Windows\\System32\\conhost.exe"]
     rfl (by simp) rfl⟩

/-- C7: when platform.system() is not Windows the run is rejected on the
unsupported-platform branch with exit code 1, regardless of the target
architecture, and the call trace is empty: no memory-allocation call was
attempted before the rejection. -/
theorem c7_reject_before_alloc (platform_system machine : String)
    (path_exists : String → Bool) (fs : String → Option (List Nat))
    (python_bits : Nat) (k : Kernel32) (arch filepath : String)
    (shellcode : List Nat)
    (hplat : py_lower platform_system ≠ "windows")
    (hload : load_shellcode fs filepath = Except.ok shellcode) :
    (main_run platform_system machine path_exists fs python_bits k arch
        filepath).2 = MainOutcome.unsupportedPlatform ∧
    main_exit (main_run platform_system machine path_exists fs python_bits k arch
        filepath).2 = 1 ∧
    has_alloc_event (main_run platform_system machine path_exists fs python_bits k
        arch filepath).1 = false := by
  have h1 : main_run platform_system machine path_exists fs python_bits k arch
      filepath = ([], MainOutcome.unsupportedPlatform) := by
    simp only [main_run, hload, if_pos hplat]
  rw [h1]
  exact ⟨rfl, rfl, rfl⟩

/-- C7 witness: concrete non-Windows run (platform Linux, target arm64) with a
loadable shellcode file: rejected as unsupported with exit 1 and no allocation
call in the trace. -/
theorem c7_reject_before_alloc_witness :
    py_lower "Linux" ≠ "windows" ∧
    load_shellcode fs_demo "sc.bin" = Except.ok [144] ∧
    (main_run "Linux" "amd64" all_paths_exist fs_demo 64 k0 "arm64" "sc.bin").2 =
      MainOutcome.unsupportedPlatform ∧
    has_alloc_event
      (main_run "Linux" "amd64" all_paths_exist fs_demo 64 k0 "arm64" "sc.bin").1 =
      false :=
  ⟨by decide, rfl,
   (c7_reject_before_alloc "Linux" "amd64" all_paths_exist fs_demo 64 k0 "arm64"
      "sc.bin" [144] (by decide) rfl).1,
   (c7_reject_before_alloc "Linux" "amd64" all_paths_exist fs_demo 64 k0 "arm64"
      "sc.bin" [144] (by decide) rfl).2.2⟩

/-- C8: host profiling and the injection decision are total: get_os_arch maps
every machine identifier to one of the three canonical names or passes the
lowered identifier through unchanged, and a target architecture absent from
ARCH_MAP defaults to bit-width 64 inside needs_injection, which then reduces
to comparing the interpreter bit-width with 64. -/
theorem c8_total (machine target_arch : String) (python_bits : Nat) :
    (get_os_arch machine = "amd64" ∨ get_os_arch machine = "arm64" ∨
      get_os_arch machine = "x86" ∨ get_os_arch machine = py_lower machine) ∧
    (ARCH_MAP (normalize_arch target_arch) = none →
      needs_injection target_arch python_bits = (python_bits != 64)) := by
  constructor
  · simp only [get_os_arch]
    split
    · exact Or.inl rfl
    · split
      · exact Or.inr (Or.inl rfl)
      · split
        · exact Or.inr (Or.inr (Or.inl rfl))
        · exact Or.inr (Or.inr (Or.inr rfl))
  · intro h
    simp only [needs_injection, h]
    rfl

/-- C8 witness: the unrecognized machine identifier riscv64 passes through
get_os_arch, and the unrecognized target mips defaults to 64 bits, so a 32-bit
interpreter decides to inject. -/
theorem c8_total_witness :
    (get_os_arch "riscv64" = "amd64" ∨ get_os_arch "riscv64" = "arm64" ∨
      get_os_arch "riscv64" = "x86" ∨ get_os_arch "riscv64" = py_lower "riscv64") ∧
    ARCH_MAP (normalize_arch "mips") = none ∧
    needs_injection "mips" 32 = (32 != 64) :=
  ⟨(c8_total "riscv64" "mips" 32).1, rfl, (c8_total "riscv64" "mips" 32).2 rfl⟩

/-- C9: Entry Resolver round trip for PE containers: for every synthetic image
whose first ".text"-named section sits at RVA R with entry-point RVA E at or
above it, the resolved offset is exactly E - R (as integers); and for every
image without a ".text"-named section the resolved offset is 0. -/
theorem c9_pe_roundtrip (E R : Nat) (pre post : List PESection)
    (hpre : ∀ s ∈ pre, is_text_section s = false) (hER : R ≤ E) :
    ((resolve_pe ⟨E, pre ++ (⟨".text", R⟩ : PESection) :: post⟩ : Nat) : Int) =
      (E : Int) - (R : Int) ∧
    (∀ img : PEImage, (∀ s ∈ img.sections, is_text_section s = false) →
      resolve_pe img = 0) := by
  constructor
  · simp only [resolve_pe,
      find?_append_first is_text_section pre post ⟨".text", R⟩ hpre rfl]
    omega
  · intro img h
    have hnone : img.sections.find? is_text_section = none :=
      List.find?_eq_none.mpr fun s hs => by simp [h s hs]
    simp only [resolve_pe, hnone]

/-- C9 witness: a synthetic section table [.data at 8192, .text at 4096,
.rsrc at 16384] with entry RVA 4416 resolves to offset 320 = 4416 - 4096. -/
theorem c9_pe_roundtrip_witness :
    ((resolve_pe ⟨4416, [⟨".data", 8192⟩, ⟨".text", 4096⟩, ⟨".rsrc", 16384⟩]⟩ :
        Nat) : Int) = (4416 : Int) - (4096 : Int) :=
  (c9_pe_roundtrip 4416 4096 [⟨".data", 8192⟩] [⟨".rsrc", 16384⟩]
    (by decide) (by omega)).1

/-- C10: load_shellcode rejects every degenerate input at the interface: a
missing path yields the FileNotFoundError, an existing zero-length file yields
the ValueError, and every image it returns successfully has length greater
than 0. -/
theorem c10_load (fs : String → Option (List Nat)) (filepath : String) :
    (fs filepath = none →
      load_shellcode fs filepath = Except.error (LoaderError.fileNotFound
        ("Shellcode file not found: " ++ filepath))) ∧
    (∀ b, fs filepath = some b → b.length = 0 →
      load_shellcode fs filepath =
        Except.error (LoaderError.valueError "Shellcode file is empty")) ∧
    (∀ b, load_shellcode fs filepath = Except.ok b → 0 < b.length) := by
  refine ⟨?_, ?_, ?_⟩
  · intro h
    simp only [load_shellcode, h]
  · intro b hb hlen
    simp only [load_shellcode, hb, hlen, if_pos]
  · intro b hb
    cases hfs : fs filepath with
    | none =>
        simp only [load_shellcode, hfs] at hb
        exact Except.noConfusion hb
    | some c =>
        simp only [load_shellcode, hfs] at hb
        by_cases hc : c.length = 0
        · rw [if_pos hc] at hb; cases hb
        · rw [if_neg hc] at hb
          injection hb with h
          subst h
          omega

/-- C10 witness: concrete instances: a missing path, an empty file, and a
loaded 1-byte image. -/
theorem c10_load_witness :
    fs_demo "missing.bin" = none ∧
    load_shellcode fs_demo "missing.bin" = Except.error
      (LoaderError.fileNotFound "Shellcode file not found: missing.bin") ∧
    fs_empty "empty.bin" = some [] ∧
    load_shellcode fs_empty "empty.bin" =
      Except.error (LoaderError.valueError "Shellcode file is empty") ∧
    load_shellcode fs_demo "sc.bin" = Except.ok [144] ∧
    0 < ([144] : List Nat).length :=
  ⟨rfl, (c10_load fs_demo "missing.bin").1 rfl, rfl,
   (c10_load fs_empty "empty.bin").2.1 [] rfl rfl, rfl,
   (c10_load fs_demo "sc.bin").2.2 [144] rfl⟩
